import Mathlib

/-!
Shallow embedding of `src/summarizer/utils/config.py` (class `HParameters`)
from the Summarizer repository, together with theorems settling the frozen
claims about its configuration-resolution behaviour.

Python is dynamically typed and an `HParameters` object is an attribute
dictionary, so the object is modelled as an association list from attribute
names to dynamically typed values (`Value`).  `setattr` conses a new binding
that shadows older ones; `getattr` returns the most recent binding.
Machine-level details that the claims do not touch (torch tensors, the real
wall clock, the concrete logging library) are modelled by explicit inputs
(`nowMs`, `cudaAvailable`) and by an event trace recording the side effects
the code performs (opening the SummaryWriter, `os.makedirs`, opening the
`train.log` file handle).
-/

/-- The five model constructors imported at the top of `config.py`.
`name` is the Python `__name__` of the class. -/
inductive ModelClass where
  | LogisticRegressionModel
  | VASNetModel
  | TransformerModel
  | DSNModel
  | SumGANModel
  deriving DecidableEq

/-- Python `cls.__name__` for each model constructor. -/
def ModelClass.name : ModelClass → String
  | .LogisticRegressionModel => "LogisticRegressionModel"
  | .VASNetModel => "VASNetModel"
  | .TransformerModel => "TransformerModel"
  | .DSNModel => "DSNModel"
  | .SumGANModel => "SumGANModel"

/-- Dynamically typed values an `HParameters` attribute can hold in the code
paths the claims exercise: strings, lists of strings, booleans, integers,
rationals (for the float hyperparameters), `None`, a model constructor, the
string-valued dictionaries built by `_init`, and the splits dictionary. -/
inductive Value where
  | vStr (s : String)
  | vList (xs : List String)
  | vBool (b : Bool)
  | vInt (n : Int)
  | vRat (q : Rat)
  | vNone
  | vModel (m : ModelClass)
  | vStrMap (m : List (String × String))
  | vSplitsMap (m : List (String × List String))
  deriving DecidableEq

/-- Python truthiness (`if self.test:`) for the modelled values. -/
def Value.truthy : Value → Bool
  | .vStr s => !(s == "")
  | .vList xs => !xs.isEmpty
  | .vBool b => b
  | .vInt n => !(n == 0)
  | .vRat q => !(q == 0)
  | .vNone => false
  | .vModel _ => true
  | .vStrMap m => !m.isEmpty
  | .vSplitsMap m => !m.isEmpty

/-- A Python object modelled as its attribute dictionary.  New bindings
shadow old ones, so `setAttr` is cons and `getAttr` takes the first hit. -/
def Obj : Type := List (String × Value)

/-- Python `getattr`: the most recently assigned value of the attribute,
or `none` when the object has no such attribute. -/
def getAttr : Obj → String → Option Value
  | ([] : List (String × Value)), _ => Option.none
  | ((k', v) :: rest : List (String × Value)), k =>
      if k = k' then some v else getAttr rest k

/-- Python `setattr`, shadowing any previous binding. -/
def setAttr (o : Obj) (k : String) (v : Value) : Obj :=
  ((k, v) :: o : List (String × Value))

/-- The defaults installed by `HParameters.__init__` (config.py lines 19–56). -/
def initObj : Obj :=
  ([("verbose", Value.vBool false),
    ("use_cuda", Value.vBool false),
    ("cuda_device", Value.vInt 0),
    ("max_summary_length", Value.vRat (0.15 : Rat)),
    ("l2_req", Value.vRat (0.00001 : Rat)),
    ("lr", Value.vRat (0.00005 : Rat)),
    ("epochs_max", Value.vInt 300),
    ("train_batch_size", Value.vInt 1),
    ("test_every_epochs", Value.vInt 2),
    ("root", Value.vStr ""),
    ("datasets", Value.vList
      ["datasets/summarizer_dataset_summe_google_pool5.h5",
       "datasets/summarizer_dataset_tvsum_google_pool5.h5"]),
    ("splits_files", Value.vList
      ["splits/tvsum_splits.json", "splits/summe_splits.json"]),
    ("model_class", Value.vModel ModelClass.LogisticRegressionModel),
    ("test", Value.vBool false),
    ("weights_path", Value.vNone),
    ("weights_of_file", Value.vNone),
    ("extra_params", Value.vNone)] : List (String × Value))

/-- Does `needle` match at the front of `hay`?  Helper for Python's
substring containment operator. -/
def matchHere : List Char → List Char → Bool
  | [], _ => true
  | _ :: _, [] => false
  | n :: ns, h :: hs => n = h && matchHere ns hs

/-- Does `needle` occur contiguously anywhere in `hay`? -/
def containsSub (needle : List Char) : List Char → Bool
  | [] => matchHere needle []
  | h :: hs => matchHere needle (h :: hs) || containsSub needle hs

/-- Python's `needle in hay` substring test on strings. -/
def strContains (hay needle : String) : Bool :=
  containsSub needle.data hay.data

/-- Helper for `pySplit`: walk the characters keeping the current token
(reversed); whitespace ends a token, runs of whitespace produce nothing. -/
def pySplitAux : List Char → List Char → List String
  | [], cur => if cur.isEmpty then [] else [String.mk cur.reverse]
  | c :: cs, cur =>
      if c.isWhitespace then
        if cur.isEmpty then pySplitAux cs []
        else String.mk cur.reverse :: pySplitAux cs []
      else pySplitAux cs (c :: cur)

/-- Python `str.split()` with no separator: split on whitespace runs and
drop empty pieces. -/
def pySplit (s : String) : List String :=
  pySplitAux s.data []

/-- Helper for `baseName`: the characters after the last slash. -/
def baseNameAux : List Char → List Char → List Char
  | [], acc => acc.reverse
  | c :: cs, acc => if c = '/' then baseNameAux cs [] else baseNameAux cs (c :: acc)

/-- POSIX `os.path.basename`: everything after the last slash. -/
def baseName (p : String) : String :=
  String.mk (baseNameAux p.data [])

/-- Does the string begin with a slash (used by `os.path.join`)? -/
def headIsSlash (s : String) : Bool :=
  match s.data with
  | [] => false
  | c :: _ => c = '/'

/-- Does the string end with a slash (used by `os.path.join`)? -/
def lastIsSlash (s : String) : Bool :=
  match s.data.getLast? with
  | some c => c = '/'
  | Option.none => false

/-- POSIX `os.path.join` on two components, as used throughout `_init`. -/
def pathJoin (a b : String) : String :=
  if headIsSlash b then b
  else if a = "" then b
  else if lastIsSlash a then a ++ b
  else a ++ "/" ++ b

/-- Decimal digit character, `d` taken mod 10 by the caller. -/
def digitChar : Nat → Char
  | 0 => '0'
  | 1 => '1'
  | 2 => '2'
  | 3 => '3'
  | 4 => '4'
  | 5 => '5'
  | 6 => '6'
  | 7 => '7'
  | 8 => '8'
  | _ => '9'

/-- Fuelled digit expansion: with enough fuel this is the decimal digit
string of `n`.  Fuel keeps the recursion structural. -/
def natStrAux : Nat → Nat → List Char
  | 0, _ => []
  | fuel + 1, n =>
      if n < 10 then [digitChar n]
      else natStrAux fuel (n / 10) ++ [digitChar (n % 10)]

/-- Python `str(n)` for a natural number: decimal notation (`n + 1` units of
fuel always suffice, since `n < 10 ^ (n + 1)`). -/
def natStr (n : Nat) : String :=
  String.mk (natStrAux (n + 1) n)

/-- The run directory name `str(int(now.timestamp())) + "_" + model.__name__`
(config.py lines 81–82).  The wall clock is modelled as a millisecond count
`nowMs`; Python's `int()` truncation of the float timestamp is `nowMs / 1000`. -/
def logDirName (nowMs : Nat) (modelName : String) : String :=
  natStr (nowMs / 1000) ++ "_" ++ modelName

/-- The run log path `os.path.join("logs", log_dir)` (config.py line 83). -/
def logPathOf (nowMs : Nat) (modelName : String) : String :=
  pathJoin "logs" (logDirName nowMs modelName)

/-- The `use_cuda` coercion of `_init` (config.py lines 87–93):
`"default"` probes availability, `"yes"` forces `True`, anything else
(including the boolean `True`) becomes `False`. -/
def resolveCuda (cudaAvailable : Bool) (v : Value) : Value :=
  if v = Value.vStr "default" then Value.vBool cudaAvailable
  else if v = Value.vStr "yes" then Value.vBool true
  else Value.vBool false

/-- `HParameters.get_dataset_by_name` (config.py lines 137–141): scan the
configured dataset list in order, return the singleton `[d]` for the first
`d` containing the name as a substring, and Python `None` when nothing
matches. -/
def get_dataset_by_name : List String → String → Option (List String)
  | [], _ => Option.none
  | d :: ds, dataset_name =>
      if strContains d dataset_name then some [d]
      else get_dataset_by_name ds dataset_name

/-- Python exceptions raised on the code paths the claims exercise. -/
inductive PyError where
  | attributeError (msg : String)
  | assertionError (msg : String)
  | typeError (msg : String)
  | indexError (msg : String)
  deriving DecidableEq

/-- Side effects `_init` performs, in program order: constructing the
`SummaryWriter` on the log path (which opens the metrics writer),
`os.makedirs`, and opening the `FileHandler` on `train.log`. -/
inductive Event where
  | writerOpened (dir : String)
  | dirCreated (dir : String)
  | logFileOpened (file : String)
  deriving DecidableEq

/-- One assignment of the merge loop in `load_from_args` (config.py lines
59–65): if the object already has the attribute and its current value is a
list, the incoming value must be a string and is whitespace-split; otherwise
the raw value is stored.  `none` models the `AttributeError` Python raises
when `.split()` is called on a non-string. -/
def mergeVal (cur : Option Value) (v : Value) : Option Value :=
  match cur with
  | some (Value.vList _) =>
      match v with
      | Value.vStr s => some (Value.vList (pySplit s))
      | _ => Option.none
  | _ => some v

/-- The merge loop of `load_from_args` (config.py lines 59–65): keys with a
Python `None` value are skipped, every other key is assigned with the list
coercion of `mergeVal`. -/
def loadArgsLoop : Obj → List (String × Value) → Option Obj
  | o, [] => some o
  | o, (k, v) :: rest =>
      if v = Value.vNone then loadArgsLoop o rest
      else
        match mergeVal (getAttr o k) v with
        | some v' => loadArgsLoop (setAttr o k v') rest
        | Option.none => Option.none

/-- First value bound to a key in the argument mapping (Python dict keys are
unique, so this is the dict lookup). -/
def argLookup : List (String × Value) → String → Option Value
  | [], _ => Option.none
  | (k', v) :: rest, k => if k = k' then some v else argLookup rest k

/-- The closed dispatch table of `load_from_args` (config.py lines 68–74). -/
def model_table (s : String) : Option ModelClass :=
  if s = "baseline" then some ModelClass.LogisticRegressionModel
  else if s = "vasnet" then some ModelClass.VASNetModel
  else if s = "transformer" then some ModelClass.TransformerModel
  else if s = "DSN" then some ModelClass.DSNModel
  else if s = "sumgan" then some ModelClass.SumGANModel
  else Option.none

/-- Python hashability of the modelled values: lists and dicts are
unhashable, every other modelled value (strings, booleans, numbers, `None`,
class objects) can be used as a dict key. -/
def Value.hashable : Value → Bool
  | .vList _ => false
  | .vStrMap _ => false
  | .vSplitsMap _ => false
  | _ => true

/-- The model-selection block of `load_from_args` (config.py lines 67–75):
when the key `"model"` is present, `model_class` is replaced by the table
entry for its value, with `LogisticRegressionModel` as the `.get` default
(also for hashable non-string values such as `None`); dict `.get` with an
unhashable key — a list or dict value for `"model"` — raises
`TypeError: unhashable type`. -/
def pickModel (args : List (String × Value)) (o : Obj) : Except PyError Obj :=
  match argLookup args "model" with
  | Option.none => Except.ok o
  | some v =>
      if Value.hashable v then
        Except.ok (setAttr o "model_class" (Value.vModel
          (match v with
           | Value.vStr s => (model_table s).getD ModelClass.LogisticRegressionModel
           | _ => ModelClass.LogisticRegressionModel)))
      else Except.error (PyError.typeError "unhashable type")

/-- `load_from_args` without the trailing `_init` call: the merge loop (a
Python error inside it aborts the call), then model selection. -/
def loadFromArgsPure (o : Obj) (args : List (String × Value)) : Except PyError Obj :=
  match loadArgsLoop o args with
  | Option.none =>
      Except.error (PyError.attributeError "object has no attribute split")
  | some o1 => pickModel args o1

/-- Derived per-splits-file weights destination (config.py lines 108–109):
`os.path.join(log_path, basename(splits_file) + ".pth")`. -/
def weightsDest (logPath sf : String) : String :=
  pathJoin logPath (baseName sf ++ ".pth")

/-- Derived per-splits-file predictions destination (config.py lines
110–112): `os.path.join(log_path, basename(splits_file) + "_preds.h5")`. -/
def predsDest (logPath sf : String) : String :=
  pathJoin logPath (baseName sf ++ "_preds.h5")

/-- The destination-derivation block of `_init` (config.py lines 105–112):
`weights_path` and `pred_path` are unconditionally overwritten with the
per-splits-file dictionaries of derived paths. -/
def deriveDest (logPath : String) (sfs : List String) (o : Obj) : Obj :=
  setAttr
    (setAttr o "weights_path"
      (Value.vStrMap (sfs.map (fun sf => (sf, weightsDest logPath sf)))))
    "pred_path"
    (Value.vStrMap (sfs.map (fun sf => (sf, predsDest logPath sf))))

/-- The splits-resolution loop of `_init` (config.py lines 95–103).  For
each splits file the parsing collaborator yields a dataset name and split
definitions; `get_dataset_by_name(...).pop()` resolves the dataset path.
When the lookup returns `None`, `.pop()` raises
`AttributeError: NoneType object has no attribute pop`. -/
def splitsLoop (parse : String → String × List String) (dss : List String) :
    List String →
      Except PyError
        (List (String × String) × List (String × String) × List (String × List String))
  | [] => Except.ok ([], [], [])
  | sf :: rest =>
      let p := parse sf
      match get_dataset_by_name dss p.1 with
      | Option.none =>
          Except.error (PyError.attributeError "NoneType object has no attribute pop")
      | some ds =>
          match ds.getLast? with
          | Option.none => Except.error (PyError.indexError "pop from empty list")
          | some d =>
              match splitsLoop parse dss rest with
              | Except.error e => Except.error e
              | Except.ok (ns, dfs, sps) =>
                  Except.ok ((sf, p.1) :: ns, (sf, d) :: dfs, (sf, p.2) :: sps)

/-- The test-mode weights-lookup loop of `_init` (config.py lines 116–121):
`os.path.join(self.weights_path, basename(splits_file) + ".pth")`.  At this
point `self.weights_path` holds the derived dictionary, and `os.path.join`
on a non-string first argument raises a `TypeError`. -/
def weightsOfFileLoop (wp : Value) :
    List String → Except PyError (List (String × String))
  | [] => Except.ok []
  | sf :: rest =>
      match wp with
      | Value.vStr dir =>
          match weightsOfFileLoop wp rest with
          | Except.error e => Except.error e
          | Except.ok acc =>
              Except.ok ((sf, pathJoin dir (baseName sf ++ ".pth")) :: acc)
      | _ =>
          Except.error
            (PyError.typeError "expected str, bytes or os.PathLike object, not dict")

/-- The logger block at the end of `_init` (config.py lines 127–135): a
stream handler and a `FileHandler` on `<log_path>/train.log` are attached to
the `"summarizer"` logger.  Opening the file handle is the recorded side
effect. -/
def attachLogger (evs : List Event) (logPath : String) (o : Obj) :
    List Event × Except PyError Obj :=
  (evs ++ [Event.logFileOpened (pathJoin logPath "train.log")],
   Except.ok (setAttr o "logger" (Value.vStr "summarizer")))

/-- `HParameters._init` (config.py lines 79–135), in source order: derive
the log path from the coarse timestamp and the model name, construct the
`SummaryWriter` on it, coerce `use_cuda`, resolve every splits file to a
dataset, overwrite `weights_path`/`pred_path` with the derived destination
dictionaries, then either run the test-mode branch (the `assert` and the
weights-lookup loop) or `os.makedirs(log_path)`, and finally attach the
logger.  Returns the event trace produced so far together with either the
resulting object or the Python exception that aborted the call.  Attribute
access on values of an unexpected shape is modelled as the corresponding
Python error. -/
def hpInit (nowMs : Nat) (cudaAvailable : Bool)
    (parse : String → String × List String) (o : Obj) :
    List Event × Except PyError Obj :=
  match getAttr o "model_class" with
  | some (Value.vModel m) =>
      let logPath := logPathOf nowMs (ModelClass.name m)
      let o1 := setAttr o "log_path" (Value.vStr logPath)
      let evs0 := [Event.writerOpened logPath]
      match getAttr o1 "use_cuda" with
      | Option.none => (evs0, Except.error (PyError.attributeError "use_cuda"))
      | some cu =>
          let o2 := setAttr o1 "use_cuda" (resolveCuda cudaAvailable cu)
          match getAttr o2 "splits_files", getAttr o2 "datasets" with
          | some (Value.vList sfs), some (Value.vList dss) =>
              match splitsLoop parse dss sfs with
              | Except.error e => (evs0, Except.error e)
              | Except.ok (ns, dfs, sps) =>
                  let o3 :=
                    setAttr
                      (setAttr (setAttr o2 "dataset_name_of_file" (Value.vStrMap ns))
                        "dataset_of_file" (Value.vStrMap dfs))
                      "splits_of_file" (Value.vSplitsMap sps)
                  let o4 := deriveDest logPath sfs o3
                  match getAttr o4 "test" with
                  | Option.none => (evs0, Except.error (PyError.attributeError "test"))
                  | some tv =>
                      if Value.truthy tv then
                        match getAttr o4 "weights_path" with
                        | some Value.vNone =>
                            (evs0, Except.error (PyError.assertionError "No weights path given"))
                        | some wp =>
                            match weightsOfFileLoop wp sfs with
                            | Except.error e => (evs0, Except.error e)
                            | Except.ok wof =>
                                attachLogger evs0 logPath
                                  (setAttr o4 "weights_of_file" (Value.vStrMap wof))
                        | Option.none =>
                            (evs0, Except.error (PyError.attributeError "weights_path"))
                      else
                        attachLogger (evs0 ++ [Event.dirCreated logPath]) logPath o4
          | _, _ => (evs0, Except.error (PyError.typeError "object is not iterable"))
  | some _ => ([], Except.error (PyError.attributeError "type object has no attribute"))
  | Option.none => ([], Except.error (PyError.attributeError "model_class"))

/-- `HParameters.load_from_args` (config.py lines 58–77): the merge loop,
then model selection, then `_init`.  A failure in the merge loop or in the
model-selection dict lookup aborts before `_init` runs. -/
def load_from_args (nowMs : Nat) (cudaAvailable : Bool)
    (parse : String → String × List String)
    (o : Obj) (args : List (String × Value)) : List Event × Except PyError Obj :=
  match loadFromArgsPure o args with
  | Except.error e => ([], Except.error e)
  | Except.ok o1 => hpInit nowMs cudaAvailable parse o1

/-- Modelled from the spec: the external filename-parsing collaborator
`parse_splits_filename` (imported from `summarizer.utils`, whose source is
not part of this excerpt) yields a `(dataset name, split definitions)` pair
for a splits-file path.  This concrete stub maps the two stock filenames to
their dataset names and is used only to evaluate the embedding on concrete
inputs; all general theorems quantify over the parsing function. -/
def parseStub (sf : String) : String × List String :=
  if strContains sf "tvsum" then ("tvsum", ["split0"])
  else if strContains sf "summe" then ("summe", ["split0"])
  else ("unknown", [])

/-- Is the outcome an error? -/
def exceptIsErr (r : Except PyError Obj) : Bool :=
  match r with
  | Except.error _ => true
  | Except.ok _ => false

/-- Is the outcome precisely an `AssertionError`? -/
def exceptIsAssert (r : Except PyError Obj) : Bool :=
  match r with
  | Except.error (PyError.assertionError _) => true
  | _ => false

/-- Does the event touch the filesystem tree directly (`os.makedirs` or the
`train.log` file handle)?  The `SummaryWriter` construction is not included:
it is the metrics-writer acquisition. -/
def evDiskTouch (e : Event) : Bool :=
  match e with
  | Event.dirCreated _ => true
  | Event.logFileOpened _ => true
  | Event.writerOpened _ => false

/-- Numeric value of a decimal digit character. -/
def charVal (c : Char) : Nat := c.toNat - 48

/-- Numeric value of a decimal digit string (most significant first). -/
def strVal (l : List Char) : Nat :=
  l.foldl (fun a c => 10 * a + charVal c) 0

/-- The coercion the merge loop applies to one supplied value (the
specification-level description of `mergeVal` on the cases where the loop
succeeds): whitespace-split the string when the existing field holds a
list, otherwise store the raw value. -/
def coerceArg (cur : Option Value) (v : Value) : Value :=
  match cur, v with
  | some (Value.vList _), Value.vStr s => Value.vList (pySplit s)
  | _, _ => v

/-- A default configuration whose dataset list has no entry containing the
dataset name `"tvsum"` parsed from the first stock splits file. -/
def cfgNoMatch : Obj :=
  setAttr initObj "datasets" (Value.vList ["datasets/foo.h5"])

/-- Argument mapping enabling test mode while leaving `weights_path` at its
default `None`. -/
def c2Args : List (String × Value) := [("test", Value.vBool true)]

/-- Argument mapping enabling test mode and configuring a weights path. -/
def c6Args : List (String × Value) :=
  [("test", Value.vBool true), ("weights_path", Value.vStr "pretrained")]

/-- Argument mapping that overwrites the `model_class` field directly and
carries no `"model"` key. -/
def c4BadArgs : List (String × Value) := [("model_class", Value.vStr "junk")]

/-- The object produced by merging `{"model": "vasnet"}` into the defaults
and running model selection. -/
def c4OkObj : Obj :=
  match loadFromArgsPure initObj [("model", Value.vStr "vasnet")] with
  | Except.ok o => o
  | Except.error _ => initObj

/-- Demonstration argument mapping: a scalar overwrite, two list-valued
fields supplied as delimited strings, an unknown key, and a `None` value. -/
def c3DemoArgs : List (String × Value) :=
  [("root", Value.vStr "root_dir"),
   ("datasets", Value.vStr "set1,set2,set3"),
   ("splits_files", Value.vStr "splits/a_splits.json splits/b_splits.json"),
   ("new_param_float", Value.vRat (1.23456 : Rat)),
   ("skipme", Value.vNone)]

/-- The object produced by merging `c3DemoArgs` into the defaults. -/
def c3DemoObj : Obj :=
  (loadArgsLoop initObj c3DemoArgs).getD initObj

/-- The full default resolution (train mode, defaults, stock parser stub). -/
def hpDefaultRun : List Event × Except PyError Obj :=
  hpInit 171000 false parseStub initObj

/-- The configuration object resolved by the default run. -/
def resolvedDefault : Obj :=
  match hpDefaultRun.2 with
  | Except.ok o => o
  | Except.error _ => initObj

theorem getAttr_setAttr_same (o : Obj) (k : String) (v : Value) :
    getAttr (setAttr o k v) k = some v := by
  simp [getAttr, setAttr]

theorem getAttr_setAttr_other (o : Obj) (k k' : String) (v : Value) (h : k' ≠ k) :
    getAttr (setAttr o k v) k' = getAttr o k' := by
  simp [getAttr, setAttr, h]

theorem charVal_digitChar (d : Nat) (hd : d < 10) : charVal (digitChar d) = d := by
  interval_cases d <;> rfl

theorem digitChar_ne_slash (d : Nat) : digitChar d ≠ '/' := by
  unfold digitChar
  split <;> decide

theorem strVal_append_digit (l : List Char) (c : Char) :
    strVal (l ++ [c]) = 10 * strVal l + charVal c := by
  simp [strVal, List.foldl_append]

theorem strVal_natStrAux (fuel n : Nat) (h : n < 10 ^ fuel) :
    strVal (natStrAux fuel n) = n := by
  induction fuel generalizing n with
  | zero =>
      simp only [pow_zero, Nat.lt_one_iff] at h
      simp [natStrAux, strVal, h]
  | succ f ih =>
      by_cases h10 : n < 10
      · simp [natStrAux, h10, strVal, charVal_digitChar n h10]
      · have hdiv : n / 10 < 10 ^ f := by
          rw [Nat.div_lt_iff_lt_mul (by omega)]
          calc n < 10 ^ (f + 1) := h
            _ = 10 ^ f * 10 := by ring
        simp only [natStrAux, h10, if_false]
        rw [strVal_append_digit, ih _ hdiv, charVal_digitChar _ (Nat.mod_lt _ (by omega))]
        omega

theorem strVal_natStr (n : Nat) : strVal (natStr n).data = n := by
  have : n < 10 ^ (n + 1) :=
    lt_of_lt_of_le (Nat.lt_two_pow n)
      (le_trans (Nat.pow_le_pow_left (by omega) n) (Nat.pow_le_pow_right (by omega) (by omega)))
  exact strVal_natStrAux (n + 1) n this

theorem natStr_inj {m n : Nat} (h : natStr m = natStr n) : m = n := by
  have := congrArg (fun s => strVal s.data) h
  simpa [strVal_natStr] using this

theorem natStrAux_head (f n : Nat) :
    ∃ c cs, natStrAux (f + 1) n = c :: cs ∧ c ≠ '/' := by
  induction f generalizing n with
  | zero =>
      by_cases h10 : n < 10
      · exact ⟨digitChar n, [], by simp [natStrAux, h10], digitChar_ne_slash n⟩
      · refine ⟨digitChar (n % 10), [], ?_, digitChar_ne_slash _⟩
        simp [natStrAux, h10]
  | succ f ih =>
      by_cases h10 : n < 10
      · exact ⟨digitChar n, [], by simp [natStrAux, h10], digitChar_ne_slash n⟩
      · obtain ⟨c, cs, hc, hne⟩ := ih (n / 10)
        refine ⟨c, cs ++ [digitChar (n % 10)], ?_, hne⟩
        have hstep : natStrAux (f + 1 + 1) n
            = natStrAux (f + 1) (n / 10) ++ [digitChar (n % 10)] := by
          rw [natStrAux]
          simp [h10]
        rw [hstep, hc]
        simp

theorem natStr_head (n : Nat) :
    ∃ c cs, (natStr n).data = c :: cs ∧ c ≠ '/' := natStrAux_head n n

theorem logDirName_data (t : Nat) (nm : String) :
    (logDirName t nm).data = (natStr (t / 1000)).data ++ ('_' :: nm.data) := by
  simp [logDirName, String.data_append]

theorem headIsSlash_logDirName (t : Nat) (nm : String) :
    headIsSlash (logDirName t nm) = false := by
  obtain ⟨c, cs, hc, hne⟩ := natStr_head (t / 1000)
  unfold headIsSlash
  rw [logDirName_data, hc]
  simpa using hne

theorem logPathOf_eq (t : Nat) (nm : String) :
    logPathOf t nm = "logs" ++ "/" ++ logDirName t nm := by
  unfold logPathOf pathJoin
  rw [headIsSlash_logDirName]
  have h1 : ("logs" : String) ≠ "" := by decide
  have h2 : lastIsSlash "logs" = false := rfl
  simp [h1, h2]

theorem c7_coarse_inj (t1 t2 : Nat) (nm : String)
    (h : logPathOf t1 nm = logPathOf t2 nm) : t1 / 1000 = t2 / 1000 := by
  rw [logPathOf_eq, logPathOf_eq] at h
  have hdata := congrArg String.data h
  simp only [String.data_append, logDirName_data, List.append_assoc] at hdata
  have h1 := List.append_cancel_left (List.append_cancel_left hdata)
  have h2 := List.append_cancel_right h1
  exact natStr_inj (String.ext h2)

theorem getAttr_deriveDest_weights (lp : String) (sfs : List String) (o : Obj) :
    getAttr (deriveDest lp sfs o) "weights_path"
      = some (Value.vStrMap (sfs.map (fun sf => (sf, weightsDest lp sf)))) := by
  unfold deriveDest
  rw [getAttr_setAttr_other _ _ _ _ (by decide)]
  exact getAttr_setAttr_same _ _ _

theorem splitsLoop_no_assert (parse : String → String × List String)
    (dss : List String) :
    ∀ sfs e, splitsLoop parse dss sfs = Except.error e →
      ∀ m, e ≠ PyError.assertionError m := by
  intro sfs
  induction sfs with
  | nil =>
      intro e h
      simp [splitsLoop] at h
  | cons sf rest ih =>
      intro e h
      rw [splitsLoop] at h
      split at h
      · injection h with he
        subst he
        intro m hm
        cases hm
      · split at h
        · injection h with he
          subst he
          intro m hm
          cases hm
        · split at h
          · injection h with he
            subst he
            rename_i heq
            exact ih _ heq
          · cases h

theorem weightsOfFileLoop_no_assert (wp : Value) :
    ∀ sfs e, weightsOfFileLoop wp sfs = Except.error e →
      ∀ m, e ≠ PyError.assertionError m := by
  cases wp
  case vStr s =>
      intro sfs
      induction sfs with
      | nil =>
          intro e h
          simp [weightsOfFileLoop] at h
      | cons sf rest ih =>
          intro e h
          rw [weightsOfFileLoop] at h
          split at h
          · injection h with he
            subst he
            rename_i heq
            exact ih _ heq
          · cases h
  all_goals
    intro sfs e h
    cases sfs with
    | nil => simp [weightsOfFileLoop] at h
    | cons sf rest =>
        injection h with he
        subst he
        intro m hm
        cases hm

theorem hpInit_never_assert (nowMs : Nat) (ca : Bool)
    (parse : String → String × List String) (o : Obj) :
    exceptIsAssert (hpInit nowMs ca parse o).2 = false := by
  rw [hpInit]
  split
  · dsimp only
    split
    · rfl
    · split
      · split
        · rename_i e heq
          cases e with
          | assertionError m => exact absurd rfl (splitsLoop_no_assert _ _ _ _ heq m)
          | attributeError m => rfl
          | typeError m => rfl
          | indexError m => rfl
        · split
          · rfl
          · split
            · split
              · rename_i heq
                rw [getAttr_deriveDest_weights] at heq
                cases heq
              · split
                · rename_i e heq
                  cases e with
                  | assertionError m =>
                      exact absurd rfl (weightsOfFileLoop_no_assert _ _ _ heq m)
                  | attributeError m => rfl
                  | typeError m => rfl
                  | indexError m => rfl
                · rfl
              · rfl
            · rfl
      · rfl
  · rfl
  · rfl

theorem hpInit_err_no_disk (nowMs : Nat) (ca : Bool)
    (parse : String → String × List String) (o : Obj) :
    (exceptIsErr (hpInit nowMs ca parse o).2
      && (hpInit nowMs ca parse o).1.any evDiskTouch) = false := by
  rw [hpInit]
  split
  · dsimp only
    split
    · rfl
    · split
      · split
        · rfl
        · split
          · rfl
          · split
            · split
              · rfl
              · split
                · rfl
                · simp [attachLogger, exceptIsErr]
              · rfl
            · simp [attachLogger, exceptIsErr]
      · rfl
  · rfl
  · rfl

theorem loadArgsLoop_pres (rest : List (String × Value)) (o o' : Obj) (k : String)
    (hk : k ∉ rest.map Prod.fst) (h : loadArgsLoop o rest = some o') :
    getAttr o' k = getAttr o k := by
  induction rest generalizing o with
  | nil =>
      simp [loadArgsLoop] at h
      subst h
      rfl
  | cons p rest ih =>
      rcases p with ⟨k1, v1⟩
      simp only [List.map_cons, List.mem_cons] at hk
      push_neg at hk
      obtain ⟨hk1, hk2⟩ := hk
      simp only [loadArgsLoop] at h
      by_cases hv : v1 = Value.vNone
      · rw [if_pos hv] at h
        exact ih o hk2 h
      · rw [if_neg hv] at h
        rcases hm : mergeVal (getAttr o k1) v1 with _ | v'
        · rw [hm] at h
          cases h
        · rw [hm] at h
          rw [ih _ hk2 h]
          exact getAttr_setAttr_other _ _ _ _ hk1

theorem resolveCuda_isBool (ca : Bool) (v : Value) :
    ∃ b, resolveCuda ca v = Value.vBool b := by
  unfold resolveCuda
  split
  · exact ⟨ca, rfl⟩
  · split
    · exact ⟨true, rfl⟩
    · exact ⟨false, rfl⟩

theorem hpInit_ok_use_cuda (nowMs : Nat) (ca : Bool)
    (parse : String → String × List String) (o : Obj)
    (evs : List Event) (o' : Obj)
    (h : hpInit nowMs ca parse o = (evs, Except.ok o')) :
    ∃ b, getAttr o' "use_cuda" = some (Value.vBool b) := by
  rw [hpInit] at h
  split at h
  · dsimp only at h
    split at h
    · simp at h
    · split at h
      · split at h
        · simp at h
        · split at h
          · simp at h
          · split at h
            · split at h
              · simp at h
              · split at h
                · simp at h
                · simp only [attachLogger, Prod.mk.injEq, Except.ok.injEq] at h
                  obtain ⟨-, ho⟩ := h
                  subst ho
                  rw [getAttr_setAttr_other _ _ _ _ (by decide)]
                  rw [getAttr_setAttr_other _ _ _ _ (by decide)]
                  unfold deriveDest
                  rw [getAttr_setAttr_other _ _ _ _ (by decide)]
                  rw [getAttr_setAttr_other _ _ _ _ (by decide)]
                  rw [getAttr_setAttr_other _ _ _ _ (by decide)]
                  rw [getAttr_setAttr_other _ _ _ _ (by decide)]
                  rw [getAttr_setAttr_other _ _ _ _ (by decide)]
                  rw [getAttr_setAttr_same]
                  exact (resolveCuda_isBool ca _).imp (fun b hb => by rw [hb])
              · simp at h
            · simp only [attachLogger, Prod.mk.injEq, Except.ok.injEq] at h
              obtain ⟨-, ho⟩ := h
              subst ho
              rw [getAttr_setAttr_other _ _ _ _ (by decide)]
              unfold deriveDest
              rw [getAttr_setAttr_other _ _ _ _ (by decide)]
              rw [getAttr_setAttr_other _ _ _ _ (by decide)]
              rw [getAttr_setAttr_other _ _ _ _ (by decide)]
              rw [getAttr_setAttr_other _ _ _ _ (by decide)]
              rw [getAttr_setAttr_other _ _ _ _ (by decide)]
              rw [getAttr_setAttr_same]
              exact (resolveCuda_isBool ca _).imp (fun b hb => by rw [hb])
      · simp at h
  · simp at h
  · simp at h

/-- Claim C1: `get_dataset_by_name` returns the first configured dataset
path containing the name as a substring (first-match-wins over the
configured order).  The not-found half of the claim fails on the code:
with no matching entry the function returns Python `None` (an absent
value), and `_init` then crashes on `None.pop()` with an `AttributeError`,
not with an explicit, recoverable dataset-not-found error. -/
theorem claim_C1_dataset_lookup :
    (∀ (dss : List String) (nm : String),
        get_dataset_by_name dss nm
          = Option.map (fun d => [d]) (dss.find? (fun d => strContains d nm)))
    ∧ get_dataset_by_name ["datasets/foo.h5"] "tvsum" = Option.none
    ∧ (hpInit 171000 false parseStub cfgNoMatch).2
        = Except.error (PyError.attributeError "NoneType object has no attribute pop") := by
  refine ⟨?_, rfl, rfl⟩
  intro dss nm
  induction dss with
  | nil => rfl
  | cons d ds ih =>
      by_cases h : strContains d nm
      · rw [get_dataset_by_name, if_pos h]
        simp [List.find?, h]
      · have hb : strContains d nm = false := by simpa using h
        rw [get_dataset_by_name, if_neg h, ih]
        simp [List.find?, hb]

/-- The errors `loadFromArgsPure` itself can raise (the merge loop's
`AttributeError`, the model lookup's `TypeError`) never include an
`AssertionError`. -/
theorem loadFromArgsPure_no_assert (o : Obj) (args : List (String × Value))
    (e : PyError) (h : loadFromArgsPure o args = Except.error e) :
    ∀ m, e ≠ PyError.assertionError m := by
  unfold loadFromArgsPure at h
  rcases ho : loadArgsLoop o args with _ | o1
  · rw [ho] at h
    injection h with h'
    subst h'
    intro m hm
    cases hm
  · rw [ho] at h
    dsimp only at h
    unfold pickModel at h
    rcases hl : argLookup args "model" with _ | v
    · rw [hl] at h
      injection h
    · rw [hl] at h
      rcases v with s | xs | b | n | q | _ | m | sm | spm
      all_goals first
        | (injection h with h'
           subst h'
           intro m hm
           cases hm)
        | injection h

/-- Claim C2: resolving with test mode on and `weights_path` unset is
claimed to fail with a precondition error before any directory is created.
On the code, `weights_path` has already been overwritten with the derived
destination dictionary, so the `assert` can never fire: the concrete run
opens the SummaryWriter on the log path and then dies with a `TypeError`
inside `os.path.join`, and no input whatsoever makes `load_from_args`
surface an `AssertionError`. -/
theorem claim_C2_test_precondition :
    (load_from_args 171000 false parseStub initObj c2Args).1
        = [Event.writerOpened "logs/171_LogisticRegressionModel"]
    ∧ (load_from_args 171000 false parseStub initObj c2Args).2
        = Except.error
            (PyError.typeError "expected str, bytes or os.PathLike object, not dict")
    ∧ (∀ (nowMs : Nat) (cuda : Bool) (parse : String → String × List String)
          (o : Obj) (args : List (String × Value)),
        exceptIsAssert (load_from_args nowMs cuda parse o args).2 = false) := by
  refine ⟨rfl, rfl, ?_⟩
  intro nowMs cuda parse o args
  rw [load_from_args]
  split
  · rename_i e heq
    cases e with
    | assertionError m => exact absurd rfl (loadFromArgsPure_no_assert _ _ _ heq m)
    | attributeError m => rfl
    | typeError m => rfl
    | indexError m => rfl
  · exact hpInit_never_assert _ _ _ _

/-- Claim C5: the derived weights and predictions destinations are the join
of the log directory with the splits-file basename plus the fixed suffixes,
exactly as on the spec's concrete example, and these are the values stored
in the `weights_path` and `pred_path` dictionaries by `_init`. -/
theorem claim_C5_path_derivation :
    weightsDest "logs/171_sumgan" "a/b/tvsum_splits.json"
        = "logs/171_sumgan/tvsum_splits.json.pth"
    ∧ predsDest "logs/171_sumgan" "a/b/tvsum_splits.json"
        = "logs/171_sumgan/tvsum_splits.json_preds.h5"
    ∧ (∀ L s, weightsDest L s = pathJoin L (baseName s ++ ".pth")
        ∧ predsDest L s = pathJoin L (baseName s ++ "_preds.h5"))
    ∧ (∀ lp sfs (o : Obj),
        getAttr (deriveDest lp sfs o) "weights_path"
          = some (Value.vStrMap (sfs.map (fun sf => (sf, weightsDest lp sf))))
        ∧ getAttr (deriveDest lp sfs o) "pred_path"
          = some (Value.vStrMap (sfs.map (fun sf => (sf, predsDest lp sf))))) := by
  refine ⟨rfl, rfl, fun L s => ⟨rfl, rfl⟩, fun lp sfs o => ⟨?_, ?_⟩⟩
  · exact getAttr_deriveDest_weights lp sfs o
  · exact getAttr_setAttr_same _ _ _

/-- Claim C6: in test mode with a configured weights path, the claimed
weights-lookup path (configured directory joined with basename plus
`".pth"`) is never produced by the code: the merge does store the
configured path, but `_init` overwrites `weights_path` with the derived
dictionary before the test-mode join, which therefore raises a `TypeError`
instead of deriving any lookup path. -/
theorem claim_C6_lookup_path :
    loadArgsLoop initObj c6Args
        = some ((loadArgsLoop initObj c6Args).getD initObj)
    ∧ getAttr ((loadArgsLoop initObj c6Args).getD initObj) "weights_path"
        = some (Value.vStr "pretrained")
    ∧ getAttr ((loadArgsLoop initObj c6Args).getD initObj) "test"
        = some (Value.vBool true)
    ∧ (load_from_args 171000 false parseStub initObj c6Args).2
        = Except.error
            (PyError.typeError "expected str, bytes or os.PathLike object, not dict") :=
  ⟨rfl, rfl, rfl, rfl⟩

/-- Claim C7 counterexample: two resolutions at different timestamps
(100.2 s and 100.8 s, i.e. within the same wall-clock second) produce the
same log directory, so distinctness fails as claimed. -/
theorem claim_C7_counterexample :
    logPathOf 100200 "SumGANModel" = logPathOf 100800 "SumGANModel"
    ∧ (100200 : Nat) ≠ (100800 : Nat) :=
  ⟨rfl, by decide⟩

/-- Claim C7, amended: two resolutions with the same model name whose
coarse (whole-second) timestamps differ yield distinct log directories. -/
theorem claim_C7_amended (t1 t2 : Nat) (nm : String)
    (h : t1 / 1000 ≠ t2 / 1000) :
    logPathOf t1 nm ≠ logPathOf t2 nm :=
  fun he => h (c7_coarse_inj t1 t2 nm he)

/-- Witness for the amended claim C7 at concrete timestamps 171 s and
172 s. -/
theorem claim_C7_amended_witness :
    logPathOf 171000 "SumGANModel" ≠ logPathOf 172000 "SumGANModel" :=
  claim_C7_amended 171000 172000 "SumGANModel" (by decide)

/-- Claim C8 counterexample: on a dataset-lookup failure the resolution
does fail, but the metrics writer (SummaryWriter) has already been opened
on the log path before the failure surfaces, contradicting the claim that
no resource is opened first. -/
theorem claim_C8_counterexample :
    exceptIsErr (hpInit 171000 false parseStub cfgNoMatch).2 = true
    ∧ Event.writerOpened "logs/171_LogisticRegressionModel"
        ∈ (hpInit 171000 false parseStub cfgNoMatch).1 := by
  refine ⟨rfl, ?_⟩
  show Event.writerOpened _ ∈ [Event.writerOpened "logs/171_LogisticRegressionModel"]
  exact List.mem_singleton.mpr rfl

/-- Claim C8, amended: when resolution fails, the failure is raised before
`os.makedirs` and before the `train.log` file handle is opened (the events
recorded before any error contain no disk-touching event); the metrics
writer, however, is already open. -/
theorem claim_C8_amended (nowMs : Nat) (ca : Bool)
    (parse : String → String × List String) (o : Obj) :
    (exceptIsErr (hpInit nowMs ca parse o).2
      && (hpInit nowMs ca parse o).1.any evDiskTouch) = false :=
  hpInit_err_no_disk nowMs ca parse o

/-- Claim C9: the destination-derivation step unconditionally overwrites
`weights_path` with the derived per-splits-file dictionary, so after it the
field is never Python `None`, and consequently the test-mode `assert`
can never fail on any input. -/
theorem claim_C9_weights_overwritten :
    (∀ lp sfs (o : Obj),
        getAttr (deriveDest lp sfs o) "weights_path"
          = some (Value.vStrMap (sfs.map (fun sf => (sf, weightsDest lp sf)))))
    ∧ (∀ lp sfs (o : Obj),
        getAttr (deriveDest lp sfs o) "weights_path" ≠ some Value.vNone)
    ∧ (∀ (nowMs : Nat) (ca : Bool) (parse : String → String × List String) (o : Obj),
        exceptIsAssert (hpInit nowMs ca parse o).2 = false) := by
  refine ⟨fun lp sfs o => getAttr_deriveDest_weights lp sfs o, ?_, ?_⟩
  · intro lp sfs o h
    rw [getAttr_deriveDest_weights] at h
    cases h
  · intro nowMs ca parse o
    exact hpInit_never_assert nowMs ca parse o

/-- Claim C10: the `use_cuda` coercion always yields a boolean; it yields
`False` for every value other than the strings `"default"` and `"yes"`,
including the boolean `True` itself; and after every successful resolution
the `use_cuda` field holds a boolean. -/
theorem claim_C10_cuda_flag :
    (∀ (ca : Bool) (v : Value), ∃ b, resolveCuda ca v = Value.vBool b)
    ∧ (∀ (ca : Bool) (v : Value),
        resolveCuda ca v = Value.vBool false
        ∨ v = Value.vStr "default" ∨ v = Value.vStr "yes")
    ∧ (∀ ca : Bool, resolveCuda ca (Value.vBool true) = Value.vBool false)
    ∧ (∀ ca : Bool, resolveCuda ca (Value.vStr "default") = Value.vBool ca)
    ∧ (∀ ca : Bool, resolveCuda ca (Value.vStr "yes") = Value.vBool true)
    ∧ (∀ (nowMs : Nat) (ca : Bool) (parse : String → String × List String)
          (o : Obj) (evs : List Event) (o' : Obj),
        hpInit nowMs ca parse o = (evs, Except.ok o') →
        ∃ b, getAttr o' "use_cuda" = some (Value.vBool b)) := by
  refine ⟨resolveCuda_isBool, ?_, fun ca => rfl, fun ca => rfl, fun ca => rfl, ?_⟩
  · intro ca v
    unfold resolveCuda
    split
    · right; left; assumption
    · split
      · right; right; assumption
      · left; rfl
  · intro nowMs ca parse o evs o' h
    exact hpInit_ok_use_cuda nowMs ca parse o evs o' h

/-- Witness for the hypothesis-bearing conjunct of claim C10: the default
resolution succeeds and its `use_cuda` field holds a boolean. -/
theorem claim_C10_cuda_flag_witness :
    ∃ b, getAttr resolvedDefault "use_cuda" = some (Value.vBool b) :=
  claim_C10_cuda_flag.2.2.2.2.2 171000 false parseStub initObj
    hpDefaultRun.1 resolvedDefault rfl

/-- A successful single-key merge stores exactly the coerced value. -/
theorem mergeVal_some (cur : Option Value) (v v' : Value)
    (h : mergeVal cur v = some v') : v' = coerceArg cur v := by
  rcases cur with _ | c
  · injection h with h'
    subst h'
    cases v <;> rfl
  · rcases c with s | xs | b | n | q | _ | m | sm | spm
    case vList =>
      rcases v with s | xs2 | b | n | q | _ | m | sm | spm
      case vStr =>
        injection h with h'
        rw [← h']
        rfl
      all_goals cases h
    all_goals
      injection h with h'
      subst h'
      cases v <;> rfl

/-- Claim C3: for every key with a non-null value in the argument mapping
(a Python dict, so keys are distinct), after a successful merge the
configuration's field of that name equals the supplied value, whitespace-
split into an ordered list exactly when the existing field of that name
holds a list, and stored raw otherwise — including keys the schema does not
declare, which are accepted and stored. -/
theorem claim_C3_merge (k : String) (v : Value) (hv : v ≠ Value.vNone) :
    ∀ (args : List (String × Value)) (o o' : Obj),
      (args.map Prod.fst).Nodup → (k, v) ∈ args →
      loadArgsLoop o args = some o' →
      getAttr o' k = some (coerceArg (getAttr o k) v) := by
  intro args
  induction args with
  | nil =>
      intro o o' _ hmem _
      cases hmem
  | cons p rest ih =>
      intro o o' hnd hmem h
      rcases p with ⟨k1, v1⟩
      simp only [List.map_cons, List.nodup_cons] at hnd
      obtain ⟨hk1, hnd'⟩ := hnd
      rw [loadArgsLoop] at h
      rcases List.mem_cons.mp hmem with heq | hmem'
      · have hk : k = k1 := congrArg Prod.fst heq
        have hv1 : v = v1 := congrArg Prod.snd heq
        subst hk
        subst hv1
        rw [if_neg hv] at h
        rcases hm : mergeVal (getAttr o k) v with _ | v'
        · rw [hm] at h
          cases h
        · rw [hm] at h
          rw [loadArgsLoop_pres rest _ o' k hk1 h, getAttr_setAttr_same,
            mergeVal_some _ _ _ hm]
      · have hkin : k ∈ rest.map Prod.fst := List.mem_map_of_mem Prod.fst hmem'
        have hkne : k ≠ k1 := fun hh => hk1 (hh ▸ hkin)
        by_cases hv1 : v1 = Value.vNone
        · rw [if_pos hv1] at h
          exact ih o o' hnd' hmem' h
        · rw [if_neg hv1] at h
          rcases hm : mergeVal (getAttr o k1) v1 with _ | v1'
          · rw [hm] at h
            cases h
          · rw [hm] at h
            have hx := ih (setAttr o k1 v1') o' hnd' hmem' h
            rwa [getAttr_setAttr_other _ _ _ _ hkne] at hx

/-- Witness for claim C3: merging the demonstration argument mapping into
the defaults stores, for the list-valued field `datasets`, the whitespace
split of the supplied comma-separated string (a single element, since
`str.split()` does not split on commas). -/
theorem claim_C3_merge_witness :
    getAttr c3DemoObj "datasets" = some (Value.vList ["set1,set2,set3"]) :=
  claim_C3_merge "datasets" (Value.vStr "set1,set2,set3") (by decide)
    c3DemoArgs initObj c3DemoObj (by decide) (by decide) rfl

/-- Claim C4 counterexample: an argument mapping that contains no
`"model"` key but overwrites the `model_class` field directly leaves the
resolved model constructor equal to the stored string, not to the baseline
constructor, refuting the claim's universal quantification over argument
mappings. -/
theorem claim_C4_counterexample :
    loadFromArgsPure initObj c4BadArgs
        = Except.ok (setAttr initObj "model_class" (Value.vStr "junk"))
    ∧ getAttr (setAttr initObj "model_class" (Value.vStr "junk")) "model_class"
        = some (Value.vStr "junk")
    ∧ Value.vStr "junk" ≠ Value.vModel ModelClass.LogisticRegressionModel
    ∧ argLookup c4BadArgs "model" = Option.none :=
  ⟨rfl, rfl, by decide, rfl⟩

/-- Claim C4, amended: for every argument mapping that does not itself
assign the `model_class` field, the resolved model constructor is the
dispatch-table entry for the merged `"model"` key when that key holds a
string — each of the five enumerated names maps to its constructor, any
other string to the baseline `.get` default — and is the baseline
constructor when the `"model"` key is absent. -/
theorem claim_C4_amended (args : List (String × Value)) (o' : Obj)
    (hnc : "model_class" ∉ args.map Prod.fst)
    (h : loadFromArgsPure initObj args = Except.ok o') :
    (∀ s, argLookup args "model" = some (Value.vStr s) →
        getAttr o' "model_class"
          = some (Value.vModel
              ((model_table s).getD ModelClass.LogisticRegressionModel)))
    ∧ (argLookup args "model" = Option.none →
        getAttr o' "model_class"
          = some (Value.vModel ModelClass.LogisticRegressionModel))
    ∧ model_table "baseline" = some ModelClass.LogisticRegressionModel
    ∧ model_table "vasnet" = some ModelClass.VASNetModel
    ∧ model_table "transformer" = some ModelClass.TransformerModel
    ∧ model_table "DSN" = some ModelClass.DSNModel
    ∧ model_table "sumgan" = some ModelClass.SumGANModel := by
  unfold loadFromArgsPure at h
  rcases ho : loadArgsLoop initObj args with _ | o1
  · rw [ho] at h
    cases h
  · rw [ho] at h
    dsimp only at h
    refine ⟨?_, ?_, rfl, rfl, rfl, rfl, rfl⟩
    · intro s hs
      unfold pickModel at h
      rw [hs] at h
      injection h with h'
      subst h'
      exact getAttr_setAttr_same _ _ _
    · intro hnone
      unfold pickModel at h
      rw [hnone] at h
      injection h with h'
      subst h'
      rw [loadArgsLoop_pres args initObj o1 "model_class" hnc ho]
      rfl

/-- Witness for the amended claim C4: merging `{"model": "vasnet"}` into
the defaults resolves the VASNet constructor. -/
theorem claim_C4_amended_witness :
    getAttr c4OkObj "model_class" = some (Value.vModel ModelClass.VASNetModel) :=
  (claim_C4_amended [("model", Value.vStr "vasnet")] c4OkObj (by decide) rfl).1
    "vasnet" rfl
